import Mathlib

/-!
Verification of the TwitterBackup repository (a SQLite-backed tweet archive
ingester plus a Flask viewer) against its natural-language specification.

The Python source is shallowly embedded: SQLite tables become Lists of row
structures, `INSERT OR REPLACE` becomes filter-and-append keyed on the primary
key, regex substitutions become explicit character scanners, `json.loads` on the
media/hashtag columns becomes an executable parser for JSON arrays of strings,
and side effects (HTTP fetches, the downloaded-images ledger) become explicit
state threading with an oracle deciding the outcome of each network attempt.
-/

namespace TwitterBackup

/-! ### Generic helpers shared by several embedded functions -/

/-- Python `str.lstrip("/")` on the character list: drop all leading slashes. -/
def lstripSlash (l : List Char) : List Char :=
  l.dropWhile (fun c => c = '/')

/-- The ASCII whitespace characters matched by Python's `\s` (and `str.strip()`)
on the archive's ASCII content. -/
def isSpaceChar (c : Char) : Bool :=
  c = ' ' || c = '\t' || c = '\n' || c = '\r' || c = '\x0b' || c = '\x0c'

/-- Python `str.strip()`: drop leading and trailing whitespace. -/
def pyStrip (l : List Char) : List Char :=
  ((l.dropWhile isSpaceChar).reverse.dropWhile isSpaceChar).reverse

/-- Collapse every maximal run of whitespace to a single space:
`re.sub(r"\s+", " ", line)`.  A run of whitespace emits one `' '` when the run
ends (structurally recursive formulation of the leftmost-scan substitution). -/
def collapseWs : List Char → List Char
  | [] => []
  | [c] => if isSpaceChar c then [' '] else [c]
  | c :: d :: rest =>
    if isSpaceChar c then
      if isSpaceChar d then collapseWs (d :: rest)
      else ' ' :: collapseWs (d :: rest)
    else c :: collapseWs (d :: rest)

/-- Truthiness of an optional string column / dict value in Python:
`None` and `""` are falsy. -/
def truthyOpt : Option String → Bool
  | none => false
  | some s => s ≠ ""

/-! ### `twitter_viewer.process_tweet_data._normalize_media_list` (claim C4)

```python
def _normalize_media_list(media_list):
    normalized = []
    for media_file in media_list or []:
        clean_path = media_file.lstrip("/")
        normalized.append(
            clean_path if clean_path.startswith("img/") else f"img/{clean_path}"
        )
    return normalized
```
-/

/-- One item of `_normalize_media_list`: strip leading slashes, then prefix
`img/` unless the name already starts with `img/`. -/
def normalizeMediaItem (s : String) : String :=
  let clean := lstripSlash s.data
  if ("img/".data).isPrefixOf clean then ⟨clean⟩ else "img/" ++ ⟨clean⟩

/-- The loop of `_normalize_media_list` over a whole stored media list. -/
def normalizeMediaList (media : List String) : List String :=
  media.map normalizeMediaItem

/-- Character-list core of `normalizeMediaItem`. -/
def normChars (l : List Char) : List Char :=
  let clean := lstripSlash l
  if ("img/".data).isPrefixOf clean then clean else "img/".data ++ clean

/-! ### Model of `json.loads` on the media/hashtag columns (used by C1, C2)

The ingestion pipeline only ever writes `json.dumps(list_of_strings)` into the
`media_files`/`hashtags`/`sensitive_flags` columns, so the viewer's
`json.loads` calls are modelled by an executable parser for JSON arrays of
JSON strings; any other text (including every malformed fragment) is a parse
error, mirroring the `json.JSONDecodeError` raised by `json.loads`. -/

/-- Value of a JSON hex digit, if any. -/
def hexVal (c : Char) : Option Nat :=
  if '0' ≤ c ∧ c ≤ '9' then some (c.toNat - '0'.toNat)
  else if 'a' ≤ c ∧ c ≤ 'f' then some (c.toNat - 'a'.toNat + 10)
  else if 'A' ≤ c ∧ c ≤ 'F' then some (c.toNat - 'A'.toNat + 10)
  else none

/-- JSON structural whitespace. -/
def skipJsonWs (l : List Char) : List Char :=
  l.dropWhile (fun c => c = ' ' || c = '\t' || c = '\n' || c = '\r')

/-- Parse the body of a JSON string after the opening quote; returns the
decoded string and the remainder after the closing quote. -/
def parseJStringBody (fuel : Nat) (l : List Char) (acc : List Char) :
    Option (String × List Char) :=
  match fuel with
  | 0 => none
  | fuel + 1 =>
    match l with
    | [] => none
    | '"' :: rest => some (⟨acc.reverse⟩, rest)
    | '\\' :: 'u' :: a :: b :: c :: d :: rest =>
      match hexVal a, hexVal b, hexVal c, hexVal d with
      | some x, some y, some z, some w =>
        parseJStringBody fuel rest (Char.ofNat (((x * 16 + y) * 16 + z) * 16 + w) :: acc)
      | _, _, _, _ => none
    | '\\' :: e :: rest =>
      if e = '"' then parseJStringBody fuel rest ('"' :: acc)
      else if e = '\\' then parseJStringBody fuel rest ('\\' :: acc)
      else if e = '/' then parseJStringBody fuel rest ('/' :: acc)
      else if e = 'b' then parseJStringBody fuel rest ('\x08' :: acc)
      else if e = 'f' then parseJStringBody fuel rest ('\x0c' :: acc)
      else if e = 'n' then parseJStringBody fuel rest ('\n' :: acc)
      else if e = 'r' then parseJStringBody fuel rest ('\r' :: acc)
      else if e = 't' then parseJStringBody fuel rest ('\t' :: acc)
      else none
    | c :: rest =>
      if c.toNat < 0x20 then none else parseJStringBody fuel rest (c :: acc)

/-- Parse the elements of a JSON array of strings, positioned at the start of
an element; returns the items and the remainder after the closing bracket. -/
def parseElems (fuel : Nat) (l : List Char) (acc : List String) :
    Option (List String × List Char) :=
  match fuel with
  | 0 => none
  | fuel + 1 =>
    match l with
    | '"' :: rest =>
      match parseJStringBody (rest.length + 1) rest [] with
      | none => none
      | some (s, rest2) =>
        match skipJsonWs rest2 with
        | ']' :: r => some ((s :: acc).reverse, r)
        | ',' :: r => parseElems fuel (skipJsonWs r) (s :: acc)
        | _ => none
    | _ => none

/-- Model of `json.loads` on a stored media/hashtag column: succeeds exactly on
a JSON array of strings, errors on everything else. -/
def loadsList (s : String) : Except Unit (List String) :=
  match skipJsonWs s.data with
  | '[' :: rest =>
    match skipJsonWs rest with
    | ']' :: r2 => if skipJsonWs r2 = [] then .ok [] else .error ()
    | l2 =>
      match parseElems (l2.length + 1) l2 [] with
      | some (items, rest2) => if skipJsonWs rest2 = [] then .ok items else .error ()
      | none => .error ()
  | _ => .error ()

/-! ### The record store (`tweets`, `users`, `media_files` tables) -/

/-- A row of the `tweets` table, with the columns created by
`TwitterDataProcessor.init_database` and written by `process_json_file`. -/
structure TweetRow where
  tweet_id : Nat
  retweet_id : Nat := 0
  quote_id : Nat := 0
  reply_id : Nat := 0
  conversation_id : Nat := 0
  source_id : Nat := 0
  date : Option String := none
  lang : Option String := none
  source : Option String := none
  sensitive : Bool := false
  sensitive_flags : Option String := none
  favorite_count : Nat := 0
  quote_count : Nat := 0
  reply_count : Nat := 0
  retweet_count : Nat := 0
  bookmark_count : Nat := 0
  view_count : Nat := 0
  content : Option String := none
  quote_by : Option String := none
  count : Nat := 0
  category : Option String := none
  subcategory : Option String := none
  media_files : Option String := none
  author_id : Option Nat := none
  user_id : Option Nat := none
  hashtags : Option String := none
deriving DecidableEq

/-- A row of the `users` table (the SQL column `protected` is a Lean keyword,
so it is embedded as `protected_flag`). -/
structure UserRow where
  user_id : Nat
  name : Option String := none
  nick : Option String := none
  location : Option String := none
  date : Option String := none
  verified : Bool := false
  protected_flag : Bool := false
  profile_banner : Option String := none
  profile_image : Option String := none
  favourites_count : Nat := 0
  followers_count : Nat := 0
  friends_count : Nat := 0
  listed_count : Nat := 0
  media_count : Nat := 0
  statuses_count : Nat := 0
  description : Option String := none
  url : Option String := none
deriving DecidableEq

/-- A row of the `media_files` table. -/
structure MediaRow where
  tweet_id : Nat
  file_name : String
  file_type : String
  file_path : String
deriving DecidableEq

/-- The relational store read by the viewer. -/
structure Store where
  tweets : List TweetRow := []
  users : List UserRow := []
  media_rows : List MediaRow := []
deriving DecidableEq

/-! ### Avatar resolution: `twitter_viewer.convert_avatar_url_to_local` (C8) -/

/-- Characters allowed in a URL scheme after the leading letter
(`urllib.parse` accepts letters, digits, `+`, `-`, `.`). -/
def isSchemeChar (c : Char) : Bool :=
  c.isAlphanum || c = '+' || c = '-' || c = '.'

/-- Strip a leading `scheme:` from a URL, as `urllib.parse.urlsplit` does. -/
def stripScheme (l : List Char) : List Char :=
  let pre := l.takeWhile (fun c => c ≠ ':')
  match pre with
  | [] => l
  | c :: rest =>
    if pre.length < l.length ∧ c.isAlpha ∧ rest.all isSchemeChar then
      l.drop (pre.length + 1)
    else l

/-- The `path` component of `urllib.parse.urlparse(url)`: drop the fragment,
the scheme, the `//netloc`, and the query. -/
def urlPath (url : String) : String :=
  let l := url.data.takeWhile (fun c => c ≠ '#')
  let l := stripScheme l
  let l :=
    if l.take 2 = ['/', '/'] then
      (l.drop 2).dropWhile (fun c => c ≠ '/' ∧ c ≠ '?')
    else l
  ⟨l.takeWhile (fun c => c ≠ '?')⟩

/-- Python `pathlib.Path(p).suffix`: the extension of the final path component
(empty when the dot is leading or trailing). -/
def pathSuffix (p : String) : String :=
  let name := (p.data.reverse.takeWhile (fun c => c ≠ '/')).reverse
  let revName := name.reverse
  let ext := revName.takeWhile (fun c => c ≠ '.')
  if ext.length < revName.length ∧ ext ≠ [] ∧ revName.drop (ext.length + 1) ≠ [] then
    "." ++ ⟨ext.reverse⟩
  else ""

/-- The fixed placeholder avatar URL. -/
def placeholderAvatar : String := "https://via.placeholder.com/48x48/cccccc/666666?text=?"

/-- Python `f"avatar_{user_id}"` rendering of the (possibly NULL) id. -/
def pyShowOptNat : Option Nat → String
  | some n => toString n
  | none => "None"

/-- The local filename `avatar_{user_id}{extension-of-URL}` the viewer probes. -/
def avatarLocalFilename (userId : Option Nat) (url : String) : String :=
  "avatar_" ++ pyShowOptNat userId ++ pathSuffix (urlPath url)

/-- Python falsiness of the user-id value (`None` or `0`). -/
def falsyId : Option Nat → Bool
  | none => true
  | some n => n = 0

/-- Embeds `convert_avatar_url_to_local`, with the avatar directory abstracted as the
`fileExists` predicate.  The `try/except` in the source cannot fire in this
embedding because the URL parsing model is total, matching `urllib.parse`,
which does not raise on `str` input. -/
def convert_avatar_url_to_local (fileExists : String → Bool)
    (userId : Option Nat) (originalUrl : Option String) : String :=
  if ¬ truthyOpt originalUrl ∨ falsyId userId then placeholderAvatar
  else
    let localFilename := avatarLocalFilename userId (originalUrl.getD "")
    if fileExists localFilename then "/avatar/" ++ localFilename
    else placeholderAvatar


/-! ### Relationship resolution (claims C1, C5)

`index` / `user_profile` / `search` / `tweet_detail` join the retweet target
row with `LEFT JOIN tweets rt ON t.retweet_id = rt.tweet_id` and its author
with `LEFT JOIN users rta ON rt.author_id = rta.user_id`, then attach
`retweet_info` only when `tweet["is_retweet"] and tweet.get("retweet_content")`
is truthy. -/

/-- The row joined by `ON t.retweet_id = rt.tweet_id` (SQLite PK lookup:
the first and only matching row). -/
def findTweet (ts : List TweetRow) (i : Nat) : Option TweetRow :=
  ts.find? (fun r => r.tweet_id = i)

/-- The row joined by `ON x.author_id = u.user_id`; a NULL key joins nothing. -/
def findUser (us : List UserRow) (i : Option Nat) : Option UserRow :=
  match i with
  | none => none
  | some n => us.find? (fun u => u.user_id = n)

/-- The flag `tweet["is_retweet"] = tweet["retweet_id"] > 0` (twitter_viewer.py:585,
814, 946, 1174, 1527). -/
def is_retweet_flag (t : TweetRow) : Bool := decide (0 < t.retweet_id)

/-- The flag `tweet["is_quote"] = tweet["quote_id"] > 0` (twitter_viewer.py:586, 815,
1175, 1528). -/
def is_quote_flag (t : TweetRow) : Bool := decide (0 < t.quote_id)

/-- The flag `tweet["is_reply"] = tweet["reply_id"] > 0` (twitter_viewer.py:587, 816,
1176, 1529). -/
def is_reply_flag (t : TweetRow) : Bool := decide (0 < t.reply_id)

/-- The `retweet_info` sub-object attached by the `index` (timeline) endpoint
(twitter_viewer.py:590-598); it carries no media list. -/
structure RetweetInfo where
  content : String
  author_id : Option Nat
  user_id : Option Nat
  author_name : Option String
  author_nick : Option String
  author_avatar : Option String
deriving DecidableEq

/-- The `retweet_info` sub-object attached by `tweet_detail`
(twitter_viewer.py:949-963), which also parses the target's media list. -/
structure RetweetInfoMedia where
  content : String
  author_id : Option Nat
  user_id : Option Nat
  author_name : Option String
  author_nick : Option String
  author_avatar : Option String
  media_files : List String
deriving DecidableEq

/-- The pattern `if tweet["media_files"]: json.loads(tweet["media_files"]) else []` —
the unguarded parse of a truthy column used by the root rows of `index`
(572-582), `user_profile` (801-811), `search` (1161-1171), `tweet_detail`
(933-943, 951-953) and the root media of `api_user_media` (1512-1515). -/
def parseColUnguarded (v : Option String) : Except Unit (List String) :=
  match v with
  | none => .ok []
  | some s => if s = "" then .ok [] else loadsList s

/-- The guarded variant wrapped in `try/except` returning `[]` — used by the
reverse-lookup sub-objects (622-627, 661-666, 988-993, 1027-1032), the stats
top tweets (1315-1330) and `api_user_media`'s hashtags / related media
(1518-1522, 1532-1538). -/
def parseColGuarded (v : Option String) : List String :=
  match v with
  | none => []
  | some s =>
    if s = "" then []
    else match loadsList s with
      | .ok l => l
      | .error _ => []

/-- Resolution of the forward retweet pointer as performed by `index`:
join the target row and its author, then attach the sub-object only when the
tweet is flagged a retweet and the joined `retweet_content` is truthy. -/
def resolveRetweetIndex (db : Store) (t : TweetRow) : Option RetweetInfo :=
  let rt := findTweet db.tweets t.retweet_id
  let retweet_content := rt.bind (fun r => r.content)
  if is_retweet_flag t && truthyOpt retweet_content then
    rt.map (fun r =>
      let rta := findUser db.users r.author_id
      { content := r.content.getD ""
        author_id := r.author_id
        user_id := r.user_id
        author_name := rta.bind (fun u => u.name)
        author_nick := rta.bind (fun u => u.nick)
        author_avatar := rta.bind (fun u => u.profile_image) })
  else none

/-- Resolution of the forward retweet pointer as performed by `tweet_detail`,
which additionally parses the target's `media_files` with an unguarded
`json.loads`. -/
def resolveRetweetDetail (db : Store) (t : TweetRow) :
    Except Unit (Option RetweetInfoMedia) :=
  let rt := findTweet db.tweets t.retweet_id
  let retweet_content := rt.bind (fun r => r.content)
  if is_retweet_flag t && truthyOpt retweet_content then
    match rt with
    | none => .ok none
    | some r =>
      match parseColUnguarded r.media_files with
      | .error e => .error e
      | .ok m =>
        let rta := findUser db.users r.author_id
        .ok (some
          { content := r.content.getD ""
            author_id := r.author_id
            user_id := r.user_id
            author_name := rta.bind (fun u => u.name)
            author_nick := rta.bind (fun u => u.nick)
            author_avatar := rta.bind (fun u => u.profile_image)
            media_files := m })
  else .ok none

/-! ### Root-row JSON column handling per endpoint (claim C2) -/

/-- The root-row column parsing shared verbatim by `index`, `user_profile`,
`search` and `tweet_detail`: both `media_files` and `hashtags` go through an
unguarded `json.loads`; a malformed column raises out of the endpoint. -/
def parseRootColumnsViewer (t : TweetRow) : Except Unit (List String × List String) :=
  match parseColUnguarded t.media_files with
  | .error e => .error e
  | .ok media =>
    match parseColUnguarded t.hashtags with
    | .error e => .error e
    | .ok hs => .ok (media, hs)

/-- The `stats` top-tweets parsing (twitter_viewer.py:1315-1330): both columns
guarded by `try/except`, malformed fragments become empty lists. -/
def parseColumnsStats (t : TweetRow) : List String × List String :=
  (parseColGuarded t.media_files, parseColGuarded t.hashtags)

/-- The `api_user_media` root-row parsing: `media_files` unguarded
(`json.loads(...) or []`, twitter_viewer.py:1512-1515), `hashtags` guarded
(1517-1524). -/
def api_user_media_parse (t : TweetRow) : Except Unit (List String × List String) :=
  match parseColUnguarded t.media_files with
  | .error e => .error e
  | .ok media => .ok (media, parseColGuarded t.hashtags)

/-- The outer `try/except` of `api_user_media` (twitter_viewer.py:1448,
1624-1625): an escaping exception becomes a `{"success": False, ...}` JSON
response, so the fragment endpoint reports failure instead of an empty list. -/
def api_user_media_success (t : TweetRow) : Bool :=
  match api_user_media_parse t with
  | .ok _ => true
  | .error _ => false


/-! ### The `search` endpoint (claim C6) -/

/-- Model of SQLite `strftime` field extraction on the archive's datetime
strings `YYYY-MM-DD[ HH:MM[:SS]]`: returns the zero-padded year and month
components, or `none` (SQL NULL) when the text is not a valid datetime. -/
def dateParts (s : String) : Option (String × String) :=
  match s.data with
  | y1 :: y2 :: y3 :: y4 :: '-' :: m1 :: m2 :: '-' :: d1 :: d2 :: rest =>
    if ([y1, y2, y3, y4, m1, m2, d1, d2].all Char.isDigit) then
      let month := (m1.toNat - '0'.toNat) * 10 + (m2.toNat - '0'.toNat)
      let day := (d1.toNat - '0'.toNat) * 10 + (d2.toNat - '0'.toNat)
      let timeOk :=
        match rest with
        | [] => true
        | ' ' :: h1 :: h2 :: ':' :: n1 :: n2 :: rest2 =>
          ([h1, h2, n1, n2].all Char.isDigit) &&
          ((h1.toNat - '0'.toNat) * 10 + (h2.toNat - '0'.toNat) < 24) &&
          ((n1.toNat - '0'.toNat) * 10 + (n2.toNat - '0'.toNat) < 60) &&
          (match rest2 with
           | [] => true
           | ':' :: s1 :: s2 :: [] =>
             ([s1, s2].all Char.isDigit) &&
             ((s1.toNat - '0'.toNat) * 10 + (s2.toNat - '0'.toNat) < 60)
           | _ => false)
        | _ => false
      if 1 ≤ month ∧ month ≤ 12 ∧ 1 ≤ day ∧ day ≤ 31 ∧ timeOk = true then
        some (⟨[y1, y2, y3, y4]⟩, ⟨[m1, m2]⟩)
      else none
    else none
  | _ => none

/-- Embeds `strftime('%Y', t.date)` (NULL dates and invalid text give NULL). -/
def strftimeY (d : Option String) : Option String :=
  d.bind (fun s => (dateParts s).map (fun p => p.1))

/-- Embeds `strftime('%m', t.date)`. -/
def strftimeM (d : Option String) : Option String :=
  d.bind (fun s => (dateParts s).map (fun p => p.2))

/-- The condition `t.content LIKE '%query%'`: ASCII-case-insensitive substring match; a NULL
content never matches.  (The model assumes the query carries no `%`/`_` LIKE
metacharacters, as in the claims under test.) -/
def likeContains (content : Option String) (q : String) : Bool :=
  match content with
  | none => false
  | some c => decide (List.IsInfix (q.data.map Char.toLower) (c.data.map Char.toLower))

/-- Python `str.zfill(2)` on a month digit string. -/
def zfill2 (m : String) : String :=
  if 2 ≤ m.length then m else ⟨List.replicate (2 - m.length) '0' ++ m.data⟩

/-- The WHERE clause built by `search` (twitter_viewer.py:1077-1092): each
present filter contributes one ANDed condition. -/
def searchCond (query year month : String) (t : TweetRow) : Bool :=
  (query = "" || likeContains t.content query) &&
  (year = "" || strftimeY t.date == some year) &&
  (month = "" || strftimeM t.date == some (zfill2 month))

/-- SQLite text ordering on a nullable date column: NULL sorts below every
string. -/
def optDateLe : Option String → Option String → Prop
  | none, _ => True
  | some _, none => False
  | some x, some y => x ≤ y

instance decOptDateLe : ∀ x y : Option String, Decidable (optDateLe x y)
  | none, _ => .isTrue trivial
  | some _, none => .isFalse (fun h => h)
  | some x, some y => inferInstanceAs (Decidable (x ≤ y))

def optDateLe_total : ∀ x y : Option String, optDateLe x y ∨ optDateLe y x
  | none, _ => Or.inl trivial
  | some _, none => Or.inr trivial
  | some x, some y => le_total x y

def optDateLe_trans :
    ∀ {x y z : Option String}, optDateLe x y → optDateLe y z → optDateLe x z
  | none, _, _, _, _ => trivial
  | some _, none, _, h, _ => h.elim
  | some _, some _, none, _, h => h.elim
  | some _, some _, some _, h1, h2 => le_trans h1 h2

/-- The order `ORDER BY t.date DESC`: `a` may precede `b` when `b`'s date is at most
`a`'s (hence NULL dates come last). -/
def dateDescRel (a b : TweetRow) : Prop := optDateLe b.date a.date

instance : DecidableRel dateDescRel := fun a b => decOptDateLe b.date a.date

instance : IsTotal TweetRow dateDescRel where
  total a b := (optDateLe_total a.date b.date).symm

instance : IsTrans TweetRow dateDescRel where
  trans _ _ _ hab hbc := optDateLe_trans hbc hab

/-- The full ordered result set of the search query (the SELECT without its
LIMIT/OFFSET; the companion COUNT query counts exactly these rows). -/
def searchMatches (tweets : List TweetRow) (query year month : String) : List TweetRow :=
  List.insertionSort dateDescRel (tweets.filter (searchCond query year month))

/-- Outcome of the `search` endpoint. -/
structure SearchOutcome where
  queried : Bool
  rows : List TweetRow
  page_rows : List TweetRow
  total : Nat
deriving DecidableEq

/-- The `search` endpoint (twitter_viewer.py:1052-1155): when query, year and
month are all absent it renders an empty result without touching the store;
otherwise it runs the filtered, date-descending query and pages it. -/
def search_endpoint (db : Store) (query year month : String) (page : Nat) :
    SearchOutcome :=
  if query = "" ∧ year = "" ∧ month = "" then
    { queried := false, rows := [], page_rows := [], total := 0 }
  else
    let rows := searchMatches db.tweets query year month
    { queried := true
      rows := rows
      page_rows := (rows.drop ((page - 1) * 20)).take 20
      total := (db.tweets.filter (searchCond query year month)).length }

/-! ### `get_pagination_range` (claim C10) -/

/-- Python `list(range(a, b + 1))` over integers. -/
def intRange (a b : Int) : List Int :=
  (List.range (b + 1 - a).toNat).map (fun i : Nat => a + (i : Int))

/-- The dictionary returned by `get_pagination_range`. -/
structure PaginationInfo where
  pages : List Int
  show_first : Bool
  show_last : Bool
  show_prev_dots : Bool
  show_next_dots : Bool
deriving DecidableEq

/-- Embeds `get_pagination_range(current_page, total_pages, max_visible=7)`
(twitter_viewer.py:462-520).  `half_visible = max_visible // 2`; Python floor
division coincides with `Int.ediv` used here. -/
def get_pagination_range (current_page total_pages : Int) (max_visible : Int := 7) :
    PaginationInfo :=
  if total_pages ≤ max_visible then
    { pages := intRange 1 total_pages
      show_first := false, show_last := false
      show_prev_dots := false, show_next_dots := false }
  else
    let half_visible := max_visible.ediv 2
    if current_page ≤ half_visible + 1 then
      { pages := intRange 1 max_visible
        show_first := false
        show_last := decide (max_visible < total_pages)
        show_prev_dots := false
        show_next_dots := decide (max_visible < total_pages) }
    else if total_pages - half_visible ≤ current_page then
      { pages := intRange (total_pages - max_visible + 1) total_pages
        show_first := decide (max_visible < total_pages)
        show_last := false
        show_prev_dots := decide (max_visible < total_pages)
        show_next_dots := false }
    else
      { pages := intRange (current_page - half_visible) (current_page + half_visible)
        show_first := true, show_last := true
        show_prev_dots := true, show_next_dots := true }


/-! ### The ingestion pipeline, `twitter_data_processor.py` (claim C3)

The per-tweet JSON export documents, the filesystem (media files matching
`{tweet_id}_*` and the `downloaded_images.txt` ledger), the URL hash function
(`hashlib.md5(url.encode()).hexdigest()`) and the outcome of each HTTP request
are made explicit.  `INSERT OR REPLACE` keyed on the table's primary key
deletes the conflicting row and appends the new one. -/

/-- The embedded `author` / `user` sub-object of an export document, with the
keys `insert_user` and `process_profile_images` read. -/
structure UserData where
  id : Nat
  name : Option String := none
  nick : Option String := none
  location : Option String := none
  date : Option String := none
  verified : Bool := false
  protected_flag : Bool := false
  profile_banner : Option String := none
  profile_image : Option String := none
  favourites_count : Nat := 0
  followers_count : Nat := 0
  friends_count : Nat := 0
  listed_count : Nat := 0
  media_count : Nat := 0
  statuses_count : Nat := 0
  description : Option String := none
  url : Option String := none
deriving DecidableEq

/-- One export document, with the top-level keys `process_json_file` reads
(`tweet_id` is required; everything else defaults like `data.get`). -/
structure Doc where
  tweet_id : Nat
  author : Option UserData := none
  user : Option UserData := none
  retweet_id : Nat := 0
  quote_id : Nat := 0
  reply_id : Nat := 0
  conversation_id : Nat := 0
  source_id : Nat := 0
  date : Option String := none
  lang : Option String := none
  source : Option String := none
  sensitive : Bool := false
  sensitive_flags : List String := []
  favorite_count : Nat := 0
  quote_count : Nat := 0
  reply_count : Nat := 0
  retweet_count : Nat := 0
  bookmark_count : Nat := 0
  view_count : Nat := 0
  content : Option String := none
  quote_by : Option String := none
  count : Nat := 0
  category : Option String := none
  subcategory : Option String := none
  hashtags : List String := []
deriving DecidableEq

/-- Minimal model of the `json.dumps` escaping of one string. -/
def jsonEscapeChar (c : Char) : List Char :=
  if c = '"' then ['\\', '"']
  else if c = '\\' then ['\\', '\\']
  else if c = '\n' then ['\\', 'n']
  else if c = '\t' then ['\\', 't']
  else if c = '\r' then ['\\', 'r']
  else [c]

/-- Model of `json.dumps(list_of_strings)` with the default `", "` separator. -/
def dumpsList (l : List String) : String :=
  "[" ++ String.intercalate ", "
    (l.map (fun s => "\"" ++ (⟨(s.data.map jsonEscapeChar).flatten⟩ : String) ++ "\"")) ++ "]"

/-- The mutable state of one `TwitterDataProcessor` run: the three tables, the
`downloaded_images` hash set (the ledger) and the trace of URLs for which an
HTTP request was actually issued. -/
structure IngestState where
  tweets : List TweetRow := []
  users : List UserRow := []
  media_rows : List MediaRow := []
  ledger : List String := []
  fetched : List String := []
deriving DecidableEq

/-- Embeds `insert_user`: `INSERT OR REPLACE INTO users` keyed on `user_id`. -/
def insert_user (s : IngestState) (u : UserData) : IngestState :=
  let row : UserRow :=
    { user_id := u.id, name := u.name, nick := u.nick, location := u.location
      date := u.date, verified := u.verified, protected_flag := u.protected_flag
      profile_banner := u.profile_banner, profile_image := u.profile_image
      favourites_count := u.favourites_count, followers_count := u.followers_count
      friends_count := u.friends_count, listed_count := u.listed_count
      media_count := u.media_count, statuses_count := u.statuses_count
      description := u.description, url := u.url }
  { s with users := s.users.filter (fun r => r.user_id ≠ u.id) ++ [row] }

/-- Embeds `download_image(url, filename)`: skip when the URL hash is in the ledger;
otherwise issue the HTTP request (the `fetchOk` oracle, indexed by the number
of requests made so far, decides success), record the hash only on success.
The written image file itself is outside the model. -/
def download_image (hash : String → String) (fetchOk : Nat → Bool)
    (s : IngestState) (url : String) (_filename : String) : IngestState × Bool :=
  let url_hash := hash url
  if url_hash ∈ s.ledger then (s, true)
  else
    let ok := fetchOk s.fetched.length
    let s1 := { s with fetched := s.fetched ++ [url] }
    if ok then ({ s1 with ledger := s1.ledger ++ [url_hash] }, true)
    else (s1, false)

/-- One `if user_data.get(...):` guarded download inside
`process_profile_images`: download when the URL is truthy. -/
def download_profile_pic (hash : String → String) (fetchOk : Nat → Bool)
    (s : IngestState) (ou : Option String) (filename : String → String) :
    IngestState :=
  match ou with
  | some url =>
    if url ≠ "" then (download_image hash fetchOk s url (filename url)).1 else s
  | none => s

/-- Embeds `process_profile_images`: download the banner and then the avatar when the
corresponding URL is truthy; filenames are `{banner|avatar}_{id}{suffix}`. -/
def process_profile_images (hash : String → String) (fetchOk : Nat → Bool)
    (s : IngestState) (u : UserData) : IngestState :=
  let s := download_profile_pic hash fetchOk s u.profile_banner
    (fun url => "banner_" ++ toString u.id ++ pathSuffix (urlPath url))
  download_profile_pic hash fetchOk s u.profile_image
    (fun url => "avatar_" ++ toString u.id ++ pathSuffix (urlPath url))

/-- Embeds `insert_media_files`: one row per discovered media file; the statement is
`INSERT OR REPLACE`, but the auto-increment key never conflicts, so every call
appends. -/
def insert_media_files (s : IngestState) (tweetId : Nat) (files : List String) :
    IngestState :=
  { s with media_rows := s.media_rows ++ files.map (fun f =>
      { tweet_id := tweetId, file_name := f
        file_type := ⟨(pathSuffix f).data.map Char.toLower⟩
        file_path := "img/" ++ f }) }

/-- The `if "author" in data` / `if "user" in data` step of
`process_json_file`: upsert the sub-object into `users` and download its
profile images, when present. -/
def process_user_phase (hash : String → String) (fetchOk : Nat → Bool)
    (s : IngestState) (ou : Option UserData) : IngestState :=
  match ou with
  | some a => process_profile_images hash fetchOk (insert_user s a) a
  | none => s

/-- The `tweets` row `process_json_file` inserts for a document, given the
discovered media files. -/
def tweetRowOfDoc (d : Doc) (media_files : List String) : TweetRow :=
  { tweet_id := d.tweet_id, retweet_id := d.retweet_id, quote_id := d.quote_id
    reply_id := d.reply_id, conversation_id := d.conversation_id
    source_id := d.source_id, date := d.date, lang := d.lang, source := d.source
    sensitive := d.sensitive, sensitive_flags := some (dumpsList d.sensitive_flags)
    favorite_count := d.favorite_count, quote_count := d.quote_count
    reply_count := d.reply_count, retweet_count := d.retweet_count
    bookmark_count := d.bookmark_count, view_count := d.view_count
    content := d.content, quote_by := d.quote_by, count := d.count
    category := d.category, subcategory := d.subcategory
    media_files := some (dumpsList media_files)
    author_id := d.author.map (fun a => a.id)
    user_id := d.user.map (fun u => u.id)
    hashtags := some (dumpsList d.hashtags) }

/-- Embeds `process_json_file` on one document: upsert author and user (downloading
their profile images), discover media files by `{tweet_id}_*` prefix (`fs`),
upsert the tweet row (`INSERT OR REPLACE` keyed on `tweet_id`), and record
media rows. -/
def process_json_file (hash : String → String) (fetchOk : Nat → Bool)
    (fs : Nat → List String) (s : IngestState) (d : Doc) : IngestState :=
  let s1 := process_user_phase hash fetchOk s d.author
  let s2 := process_user_phase hash fetchOk s1 d.user
  let media_files := fs d.tweet_id
  let row := tweetRowOfDoc d media_files
  let s3 := { s2 with
    tweets := s2.tweets.filter (fun r => r.tweet_id ≠ d.tweet_id) ++ [row] }
  if media_files ≠ [] then insert_media_files s3 d.tweet_id media_files else s3

/-- Embeds `process_all_files`: the batch loop over every export document. -/
def process_all_files (hash : String → String) (fetchOk : Nat → Bool)
    (fs : Nat → List String) (docs : List Doc) (s : IngestState) : IngestState :=
  docs.foldl (process_json_file hash fetchOk fs) s

/-- Number of `tweets` rows carrying a given `tweet_id`. -/
def countTweet (s : IngestState) (i : Nat) : Nat :=
  (s.tweets.filter (fun r => r.tweet_id = i)).length

/-- Number of `users` rows carrying a given `user_id`. -/
def countUser (s : IngestState) (i : Nat) : Nat :=
  (s.users.filter (fun r => r.user_id = i)).length

/-- The ledger of one state is contained in another's (the ledger only
grows during a run). -/
def LedgerSub (s s1 : IngestState) : Prop :=
  ∀ x ∈ s.ledger, x ∈ s1.ledger

/-- Every URL fetched by the run from `s` to `s1` was either already fetched
or had a hash outside `s`'s ledger at the start. -/
def FreshFetch (hash : String → String) (s s1 : IngestState) : Prop :=
  ∀ u ∈ s1.fetched, u ∈ s.fetched ∨ hash u ∉ s.ledger

/-- The user ids contributed by one optional author/user sub-object. -/
def optUserIdList : Option UserData → List Nat
  | some a => [a.id]
  | none => []

/-- The user ids mentioned by one document's author/user sub-objects. -/
def docUserIds (d : Doc) : List Nat :=
  optUserIdList d.author ++ optUserIdList d.user

/-- All tweet ids of a document batch. -/
def docTweetIds (docs : List Doc) : List Nat := docs.map (fun d => d.tweet_id)

/-- All user ids mentioned across a document batch. -/
def allUserIds (docs : List Doc) : List Nat := (docs.map docUserIds).flatten


/-! ### Content markup transformation (claim C7)

`process_tweet_data` rewrites a truthy content field with
`clean_tweet_content`, then `process_space_links`, then `process_links`
(YouTube embeds, then `t.co` markers, then general links).  Each `re.sub` is
embedded as a left-to-right scanner that attempts the pattern at every
position and never rescans replacement text, matching `re.sub` semantics. -/

/-- Characters of the regex classes `[a-zA-Z0-9_-]`. -/
def isUrlIdChar (c : Char) : Bool :=
  c.isAlphanum || c = '_' || c = '-'

/-- Consume a literal, returning the remainder on success. -/
def matchLit (pat : List Char) (l : List Char) : Option (List Char) :=
  if pat.isPrefixOf l then some (l.drop pat.length) else none

/-- Consume `https?://`. -/
def matchScheme (l : List Char) : Option (List Char) :=
  match matchLit "http".data l with
  | none => none
  | some r =>
    let r := match matchLit "s".data r with
      | some r2 => r2
      | none => r
    matchLit "://".data r

/-- Embeds `clean_tweet_content` (twitter_viewer.py:241-258): strip and collapse
whitespace per line, drop blank lines, join with `<br>`. -/
def clean_tweet_content (content : String) : String :=
  if content = "" then content
  else
    let lines := content.data.splitOn '\n'
    let processed := lines.map (fun line => collapseWs (pyStrip line))
    let nonEmpty := processed.filter (fun l => l ≠ [])
    String.intercalate "<br>" (nonEmpty.map (fun l => (⟨l⟩ : String)))

/-- Attempt the Space-link pattern
`https?://(?:x|twitter)\.com/i/spaces/[a-zA-Z0-9_-]+` at the head; returns the
remainder after the match. -/
def matchSpaceLink (l : List Char) : Option (List Char) :=
  (matchScheme l).bind (fun r =>
    let host := match matchLit "x.com/i/spaces/".data r with
      | some r2 => some r2
      | none => matchLit "twitter.com/i/spaces/".data r
    host.bind (fun r2 =>
      let idRun := r2.takeWhile isUrlIdChar
      if idRun = [] then none else some (r2.drop idRun.length)))

/-- The scanner behind `process_space_links`: replace every Space link with the
badge anchor built from the matched URL. -/
def spaceLinksCore (fuel : Nat) (l : List Char) : List Char :=
  match fuel with
  | 0 => l
  | fuel + 1 =>
    match l with
    | [] => []
    | c :: rest =>
      match matchSpaceLink l with
      | some rest2 =>
        let url : List Char := l.take (l.length - rest2.length)
        "<a href=\"".data ++ url ++
          "\" target=\"_blank\" class=\"space-link\"><i class=\"fas fa-microphone-alt\"></i> Space</a>".data ++
          spaceLinksCore fuel rest2
      | none => c :: spaceLinksCore fuel rest

/-- Embeds `process_space_links` (twitter_viewer.py:228-238). -/
def process_space_links (content : String) : String :=
  if content = "" then content
  else ⟨spaceLinksCore content.data.length content.data⟩

/-- Attempt the YouTube pattern
`https?://(?:www\.)?(?:youtube\.com/(?:watch\?v=|embed/|v/|live/)|youtu\.be/)([a-zA-Z0-9_-]+)(?:\?[^"\s]*)?`
at the head; returns the captured video id and the remainder. -/
def matchYoutube (l : List Char) : Option (String × List Char) :=
  (matchScheme l).bind (fun r =>
    let r := match matchLit "www.".data r with
      | some r2 => r2
      | none => r
    let afterHost :=
      match (matchLit "youtube.com/".data r).bind (fun r2 =>
        match matchLit "watch?v=".data r2 with
        | some r3 => some r3
        | none =>
          match matchLit "embed/".data r2 with
          | some r3 => some r3
          | none =>
            match matchLit "v/".data r2 with
            | some r3 => some r3
            | none => matchLit "live/".data r2) with
      | some r3 => some r3
      | none => matchLit "youtu.be/".data r
    afterHost.bind (fun r4 =>
      let vid := r4.takeWhile isUrlIdChar
      if vid = [] then none
      else
        let r5 := r4.drop vid.length
        let r6 := match r5 with
          | '?' :: r7 => r7.dropWhile (fun c => ¬ (c = '"' || isSpaceChar c))
          | _ => r5
        some ((⟨vid⟩ : String), r6)))

/-- The iframe block `replace_youtube_link` substitutes for a matched link. -/
def youtubeEmbedHtml (videoId : String) : String :=
  "<div class=\"youtube-embed\" style=\"margin-top: 10px;\" data-video-id=\"" ++ videoId ++ "\">\n" ++
  "                <iframe \n" ++
  "                    width=\"100%\" \n" ++
  "                    height=\"315\" \n" ++
  "                    src=\"https://www.youtube.com/embed/" ++ videoId ++ "\" \n" ++
  "                    frameborder=\"0\" \n" ++
  "                    allow=\"accelerometer; autoplay; clipboard-write; encrypted-media; gyroscope; picture-in-picture\" \n" ++
  "                    allowfullscreen\n" ++
  "                    onload=\"handleYouTubeLoad(this)\"\n" ++
  "                    onerror=\"handleYouTubeError(this)\"\n" ++
  "                ></iframe>\n" ++
  "                <div class=\"youtube-placeholder youtube-loading\" style=\"display: none;\">\n" ++
  "                    <div class=\"youtube-placeholder-content\">\n" ++
  "                        <i class=\"fas fa-spinner youtube-placeholder-icon\"></i>\n" ++
  "                        <div class=\"youtube-placeholder-text no-translate\">Loading video...</div>\n" ++
  "                        <div class=\"youtube-placeholder-subtext no-translate\">Please wait, connecting to YouTube</div>\n" ++
  "                    </div>\n" ++
  "                </div>\n" ++
  "                <div class=\"youtube-placeholder youtube-error\" style=\"display: none;\">\n" ++
  "                    <div class=\"youtube-placeholder-content\">\n" ++
  "                        <i class=\"fas fa-exclamation-triangle youtube-placeholder-icon\"></i>\n" ++
  "                        <div class=\"youtube-placeholder-text no-translate\">Video loading failed</div>\n" ++
  "                        <div class=\"youtube-placeholder-subtext no-translate\">Unable to access this YouTube video, may be network issue or video deleted</div>\n" ++
  "                        <button class=\"youtube-placeholder-button\" onclick=\"retryYouTubeVideo(this)\">\n" ++
  "                            <i class=\"fas fa-redo\"></i> <span class=\"no-translate\">Retry</span>\n" ++
  "                        </button>\n" ++
  "                    </div>\n" ++
  "                </div>\n" ++
  "            </div>"

/-- Scanner for the YouTube substitution pass of `process_links`. -/
def youtubePassCore (fuel : Nat) (l : List Char) : List Char :=
  match fuel with
  | 0 => l
  | fuel + 1 =>
    match l with
    | [] => []
    | c :: rest =>
      match matchYoutube l with
      | some (vid, rest2) => (youtubeEmbedHtml vid).data ++ youtubePassCore fuel rest2
      | none => c :: youtubePassCore fuel rest

/-- Attempt the `t.co` pattern `https?://t\.co/[a-zA-Z0-9]+` at the head. -/
def matchTco (l : List Char) : Option (List Char) :=
  (matchScheme l).bind (fun r =>
    (matchLit "t.co/".data r).bind (fun r2 =>
      let run := r2.takeWhile (fun c => c.isAlphanum)
      if run = [] then none else some (r2.drop run.length)))

/-- The fixed marker `replace_tco_link` substitutes (the anchor text is the
Chinese for "view link"). -/
def tcoMarker : String := "<span class=\"tco-link\">查看链接</span>"

/-- Scanner for the `t.co` substitution pass of `process_links`. -/
def tcoPassCore (fuel : Nat) (l : List Char) : List Char :=
  match fuel with
  | 0 => l
  | fuel + 1 =>
    match l with
    | [] => []
    | c :: rest =>
      match matchTco l with
      | some rest2 => tcoMarker.data ++ tcoPassCore fuel rest2
      | none => c :: tcoPassCore fuel rest

/-- The negative lookahead of the general-link pattern:
`(?!t\.co|(?:www\.)?(?:youtube\.com|youtu\.be)|(?:x|twitter)\.com/i/spaces)`. -/
def generalLookaheadBlocked (r : List Char) : Bool :=
  ("t.co".data.isPrefixOf r) ||
  ("youtube.com".data.isPrefixOf r) || ("youtu.be".data.isPrefixOf r) ||
  ("www.youtube.com".data.isPrefixOf r) || ("www.youtu.be".data.isPrefixOf r) ||
  ("x.com/i/spaces".data.isPrefixOf r) || ("twitter.com/i/spaces".data.isPrefixOf r)

/-- Attempt the general-link pattern
`https?://(?!...)[^\s<>"]+` at the head; returns the remainder. -/
def matchGeneralLink (l : List Char) : Option (List Char) :=
  (matchScheme l).bind (fun r =>
    if generalLookaheadBlocked r then none
    else
      let run := r.takeWhile (fun c => ¬ (isSpaceChar c || c = '<' || c = '>' || c = '"'))
      if run = [] then none else some (r.drop run.length))

/-- Scanner for the general-link substitution pass of `process_links`:
the whole matched URL becomes a clickable anchor labelled by itself. -/
def generalPassCore (fuel : Nat) (l : List Char) : List Char :=
  match fuel with
  | 0 => l
  | fuel + 1 =>
    match l with
    | [] => []
    | c :: rest =>
      match matchGeneralLink l with
      | some rest2 =>
        let url : List Char := l.take (l.length - rest2.length)
        "<a href=\"".data ++ url ++ "\" target=\"_blank\" class=\"general-link\">".data ++
          url ++ "</a>".data ++ generalPassCore fuel rest2
      | none => c :: generalPassCore fuel rest

/-- Embeds `process_links` (twitter_viewer.py:261-323): YouTube embeds, then `t.co`
markers, then remaining bare links, in that order. -/
def process_links (content : String) : String :=
  if content = "" then content
  else
    let l1 := youtubePassCore content.data.length content.data
    let l2 := tcoPassCore l1.length l1
    let l3 := generalPassCore l2.length l2
    ⟨l3⟩

/-- The full content transformation a truthy content field undergoes in
`process_tweet_data` (twitter_viewer.py:326-329): clean, then Space links,
then `process_links`; falsy content is left untouched. -/
def transformTweetContent (content : Option String) : Option String :=
  match content with
  | none => none
  | some c =>
    if c = "" then some c
    else some (process_links (process_space_links (clean_tweet_content c)))


/-! ### The translation collaborator, `translation_service.py` (claim C9)

The vendor HTTP back ends (`_translate_with_google` / `baidu` / `youdao` /
`deepl` / `openai`) are abstracted as an oracle returning either the vendor's
translated text or the message of the exception the helper raised; each helper
issues exactly one HTTP request, which the embedding counts. -/

/-- Model of `re.sub(r"<[^>]+>", "", content)`: delete every HTML tag. -/
def stripHtmlTags (fuel : Nat) (l : List Char) : List Char :=
  match fuel with
  | 0 => l
  | fuel + 1 =>
    match l with
    | [] => []
    | c :: rest =>
      if c = '<' then
        let body := rest.takeWhile (fun x => x ≠ '>')
        if body ≠ [] ∧ rest.drop body.length ≠ [] then
          stripHtmlTags fuel (rest.drop (body.length + 1))
        else c :: stripHtmlTags fuel rest
      else c :: stripHtmlTags fuel rest

/-- Embeds `TranslationService.clean_tweet_content`
(translation_service.py:83-102): falsy input returns `""`; otherwise HTML tags
are removed, whitespace runs collapsed, and the ends stripped. -/
def ts_clean_tweet_content (content : String) : String :=
  if content = "" then ""
  else ⟨pyStrip (collapseWs (stripHtmlTags content.data.length content.data))⟩

/-- The `supported_languages` table of `TranslationService.__init__`. -/
def supported_languages : List (String × String) :=
  [("zh", "中文"), ("en", "English"), ("ja", "日本語"), ("ko", "한국어"),
   ("es", "Español"), ("fr", "Français"), ("de", "Deutsch"), ("ru", "Русский"),
   ("ar", "العربية"), ("hi", "हिन्दी"), ("pt", "Português"), ("it", "Italiano")]

/-- Python `self.supported_languages.get(lang, default)`. -/
def supportedLangName (lang dflt : String) : String :=
  match supported_languages.find? (fun p => p.1 = lang) with
  | some p => p.2
  | none => dflt

/-- The dictionary `translate_tweet` returns. -/
structure TranslateResult where
  success : Bool
  error : Option String := none
  original : String := ""
  translated : String := ""
  source_lang : String := ""
  target_lang : String := ""
  target_lang_name : Option String := none
deriving DecidableEq

/-- The vendor back end: clean content, target and source language in; the
translated text, or the raised exception's message, out. -/
def VendorOracle := String → String → String → Except String String

/-- The service types `translate_tweet` dispatches on. -/
def knownServiceType (serviceType : String) : Bool :=
  serviceType = "openai" || serviceType = "google" || serviceType = "baidu" ||
  serviceType = "youdao" || serviceType = "deepl"

/-- Embeds `TranslationService.translate_tweet` (translation_service.py:104-184),
paired with the number of HTTP requests it performed. -/
def translate_tweet (oracle : VendorOracle) (serviceType : String)
    (content : String) (targetLang : String := "zh") (sourceLang : String := "auto") :
    TranslateResult × Nat :=
  let clean_content := ts_clean_tweet_content content
  if clean_content = "" then
    ({ success := false, error := some "推文内容为空", original := content
       translated := "", source_lang := sourceLang, target_lang := targetLang }, 0)
  else
    let target_lang_name := supportedLangName targetLang "中文"
    if knownServiceType serviceType then
      match oracle clean_content targetLang sourceLang with
      | .ok translated_text =>
        ({ success := true, original := content, translated := translated_text
           source_lang := sourceLang, target_lang := targetLang
           target_lang_name := some target_lang_name }, 1)
      | .error e =>
        ({ success := false, error := some ("翻译失败: " ++ e), original := content
           translated := "", source_lang := sourceLang, target_lang := targetLang }, 1)
    else
      ({ success := false, error := some ("不支持的翻译服务: " ++ serviceType)
         original := content, translated := "", source_lang := sourceLang
         target_lang := targetLang }, 0)

/-- The dictionary `detect_language` returns. -/
structure DetectResult where
  success : Bool
  error : Option String := none
  detected_lang : String := "unknown"
  detected_lang_name : Option String := none
deriving DecidableEq

/-- Model of `re.search` over a Unicode code-point range. -/
def hasCharInRange (lo hi : Nat) (s : String) : Bool :=
  s.data.any (fun c => lo ≤ c.toNat ∧ c.toNat ≤ hi)

/-- Embeds `TranslationService._simple_language_detection`
(translation_service.py:451-478). -/
def simple_language_detection (content : String) : String :=
  if hasCharInRange 0x4e00 0x9fff content then "zh"
  else if hasCharInRange 0x3040 0x309f content || hasCharInRange 0x30a0 0x30ff content then "ja"
  else if hasCharInRange 0xac00 0xd7af content then "ko"
  else if hasCharInRange 0x0600 0x06ff content then "ar"
  else if hasCharInRange 0x0900 0x097f content then "hi"
  else if hasCharInRange 0x0400 0x04ff content then "ru"
  else "en"

/-- The OpenAI language-detection back end, abstracted like `VendorOracle`. -/
def DetectOracle := String → Except String String

/-- Embeds `TranslationService.detect_language` (translation_service.py:367-449),
paired with the number of HTTP requests it performed. -/
def detect_language (oracle : DetectOracle) (serviceType : String)
    (content : String) : DetectResult × Nat :=
  let clean_content := ts_clean_tweet_content content
  if clean_content = "" then
    ({ success := false, error := some "文本内容为空", detected_lang := "unknown" }, 0)
  else if serviceType ≠ "openai" then
    let detected := simple_language_detection clean_content
    ({ success := true, detected_lang := detected
       detected_lang_name := some (supportedLangName detected "未知语言") }, 0)
  else
    match oracle clean_content with
    | .ok lang =>
      ({ success := true, detected_lang := lang
         detected_lang_name := some (supportedLangName lang "未知语言") }, 1)
    | .error e =>
      ({ success := false, error := some ("语言检测失败: " ++ e)
         detected_lang := "unknown" }, 1)


end TwitterBackup

/-!
## Theorems

Helper lemmas first (inside the namespace), then one theorem per claim with
its witness / counterexample companions.
-/

namespace TwitterBackup

theorem normalizeMediaItem_eq (s : String) :
    normalizeMediaItem s = ⟨normChars s.data⟩ := by
  unfold normalizeMediaItem normChars
  by_cases h : ("img/".data).isPrefixOf (lstripSlash s.data)
  · simp [h]
  · simp [h]
    rfl

theorem isPrefixOf_exists :
    ∀ {l1 l2 : List Char}, l1.isPrefixOf l2 = true → ∃ t, l1 ++ t = l2
  | [], l2, _ => ⟨l2, rfl⟩
  | a :: l1, [], h => by simp [List.isPrefixOf] at h
  | a :: l1, b :: l2, h => by
    simp only [List.isPrefixOf, Bool.and_eq_true, beq_iff_eq] at h
    obtain ⟨t, ht⟩ := isPrefixOf_exists h.2
    exact ⟨t, by rw [h.1, List.cons_append, ht]⟩

theorem isPrefixOf_append : ∀ (l1 t : List Char), l1.isPrefixOf (l1 ++ t) = true
  | [], _ => by simp [List.isPrefixOf]
  | a :: l1, t => by
    simp only [List.cons_append, List.isPrefixOf, Bool.and_eq_true, beq_iff_eq]
    exact ⟨trivial, isPrefixOf_append l1 t⟩

theorem normChars_shape (l : List Char) :
    ∃ t, normChars l = 'i' :: 'm' :: 'g' :: '/' :: t := by
  unfold normChars
  by_cases h : ("img/".data).isPrefixOf (lstripSlash l)
  · obtain ⟨t, ht⟩ := isPrefixOf_exists h
    exact ⟨t, by simp [h, ← ht]⟩
  · exact ⟨lstripSlash l, by simp [h]⟩

theorem normChars_idem (l : List Char) : normChars (normChars l) = normChars l := by
  obtain ⟨t, ht⟩ := normChars_shape l
  rw [ht]
  have hstrip : lstripSlash ('i' :: 'm' :: 'g' :: '/' :: t) = 'i' :: 'm' :: 'g' :: '/' :: t := by
    simp [lstripSlash, List.dropWhile]
  unfold normChars
  rw [hstrip]
  have hpre : ("img/".data).isPrefixOf ('i' :: 'm' :: 'g' :: '/' :: t) = true :=
    isPrefixOf_append "img/".data t
  simp [hpre]

theorem normalizeMediaItem_idem (s : String) :
    normalizeMediaItem (normalizeMediaItem s) = normalizeMediaItem s := by
  rw [normalizeMediaItem_eq s, normalizeMediaItem_eq, normChars_idem]

theorem intRange_length (a b : Int) : (intRange a b).length = (b + 1 - a).toNat := by
  unfold intRange
  rw [List.length_map, List.length_range]

theorem mem_intRange {a b p : Int} : p ∈ intRange a b ↔ a ≤ p ∧ p ≤ b := by
  unfold intRange
  constructor
  · intro hp
    obtain ⟨i, hi, hip⟩ := List.mem_map.mp hp
    rw [List.mem_range] at hi
    subst hip
    omega
  · rintro ⟨hl, hr⟩
    refine List.mem_map.mpr ⟨(p - a).toNat, List.mem_range.mpr ?_, ?_⟩ <;> omega

theorem intRange_ne_nil {a b : Int} (h : a ≤ b) : intRange a b ≠ [] := by
  intro hnil
  have hlen := intRange_length a b
  rw [hnil] at hlen
  simp at hlen
  omega

theorem findTweet_eq_some_of_mem {ts : List TweetRow} {rt : TweetRow}
    (hnd : (ts.map (fun r => r.tweet_id)).Nodup) (hmem : rt ∈ ts) :
    findTweet ts rt.tweet_id = some rt := by
  induction ts with
  | nil => cases hmem
  | cons a ts ih =>
    rw [List.map_cons, List.nodup_cons] at hnd
    rcases List.mem_cons.mp hmem with h | h
    · subst h
      unfold findTweet
      rw [List.find?_cons_of_pos _ (by simp)]
    · have hne : ¬ (a.tweet_id = rt.tweet_id) := by
        intro he
        exact hnd.1 (he ▸ List.mem_map_of_mem (fun r => r.tweet_id) h)
      unfold findTweet
      rw [List.find?_cons_of_neg _ (by simpa using hne)]
      exact ih hnd.2 h

/-! Helper lemmas for the ingestion pipeline (claim C3). -/

theorem filterLength_upsert {α : Type} (l : List α) (key : α → Nat) (new : α)
    (k i : Nat) (hnew : key new = k) :
    ((l.filter (fun r => key r ≠ k) ++ [new]).filter (fun r => key r = i)).length =
      if i = k then 1 else (l.filter (fun r => key r = i)).length := by
  rw [List.filter_append]
  by_cases h : i = k
  · subst h
    have h1 : (l.filter (fun r => key r ≠ i)).filter (fun r => key r = i) = [] := by
      rw [List.filter_eq_nil_iff]
      intro a ha
      have h2 := List.of_mem_filter ha
      simp at h2 ⊢
      exact h2
    rw [h1]
    simp [hnew]
  · have h2 : List.filter (fun r => key r = i) [new] = [] := by
      rw [List.filter_eq_nil_iff]
      intro a ha
      rw [List.mem_singleton] at ha
      subst ha
      simp only [hnew, decide_eq_true_eq]
      exact fun hh => h hh.symm
    have h3 : (l.filter (fun r => key r ≠ k)).filter (fun r => key r = i) =
        l.filter (fun r => key r = i) := by
      rw [List.filter_filter]
      apply List.filter_congr
      intro a _
      by_cases hk : key a = i
      · simp [hk, h]
      · simp [hk]
    rw [h2, h3]
    simp [h]

theorem download_shape (hash : String → String) (f : Nat → Bool)
    (s : IngestState) (url fn : String) :
    ∃ led fet, (download_image hash f s url fn).1 =
      { s with ledger := led, fetched := fet } := by
  unfold download_image
  by_cases h1 : hash url ∈ s.ledger
  · exact ⟨s.ledger, s.fetched, by simp [h1]⟩
  · by_cases h2 : f s.fetched.length = true
    · exact ⟨s.ledger ++ [hash url], s.fetched ++ [url], by simp [h1, h2]⟩
    · exact ⟨s.ledger, s.fetched ++ [url], by simp [h1, h2]⟩

theorem download_pic_shape (hash : String → String) (f : Nat → Bool)
    (s : IngestState) (ou : Option String) (filename : String → String) :
    ∃ led fet, download_profile_pic hash f s ou filename =
      { s with ledger := led, fetched := fet } := by
  cases ou with
  | none => exact ⟨s.ledger, s.fetched, rfl⟩
  | some url =>
    by_cases h : url ≠ ""
    · obtain ⟨l, ft, hs⟩ := download_shape hash f s url (filename url)
      refine ⟨l, ft, ?_⟩
      show (if url ≠ "" then (download_image hash f s url (filename url)).1 else s) = _
      rw [if_pos h]
      exact hs
    · refine ⟨s.ledger, s.fetched, ?_⟩
      show (if url ≠ "" then (download_image hash f s url (filename url)).1 else s) = _
      rw [if_neg h]

theorem ppi_shape (hash : String → String) (f : Nat → Bool)
    (s : IngestState) (u : UserData) :
    ∃ led fet, process_profile_images hash f s u =
      { s with ledger := led, fetched := fet } := by
  unfold process_profile_images
  obtain ⟨l1, f1, h1⟩ := download_pic_shape hash f s u.profile_banner
    (fun url => "banner_" ++ toString u.id ++ pathSuffix (urlPath url))
  rw [h1]
  obtain ⟨l2, f2, h2⟩ := download_pic_shape hash f
    { s with ledger := l1, fetched := f1 } u.profile_image
    (fun url => "avatar_" ++ toString u.id ++ pathSuffix (urlPath url))
  exact ⟨l2, f2, h2⟩

theorem phase_shape (hash : String → String) (f : Nat → Bool)
    (s : IngestState) (ou : Option UserData) :
    ∃ us led fet, process_user_phase hash f s ou =
      { s with users := us, ledger := led, fetched := fet } := by
  cases ou with
  | none => exact ⟨s.users, s.ledger, s.fetched, rfl⟩
  | some a =>
    obtain ⟨l, ft, hs⟩ := ppi_shape hash f (insert_user s a) a
    exact ⟨(insert_user s a).users, l, ft, hs⟩

theorem tweets_phase (hash : String → String) (f : Nat → Bool)
    (s : IngestState) (ou : Option UserData) :
    (process_user_phase hash f s ou).tweets = s.tweets := by
  obtain ⟨us, l, ft, hs⟩ := phase_shape hash f s ou
  rw [hs]

theorem countUser_insert (s : IngestState) (u : UserData) (i : Nat) :
    countUser (insert_user s u) i = if i = u.id then 1 else countUser s i := by
  unfold countUser insert_user
  exact filterLength_upsert s.users (fun r => r.user_id) _ u.id i rfl

theorem countUser_phase (hash : String → String) (f : Nat → Bool)
    (s : IngestState) (ou : Option UserData) (i : Nat) :
    countUser (process_user_phase hash f s ou) i =
      if i ∈ optUserIdList ou then 1 else countUser s i := by
  cases ou with
  | none => simp [process_user_phase, optUserIdList]
  | some a =>
    obtain ⟨l, ft, hs⟩ := ppi_shape hash f (insert_user s a) a
    have h1 : countUser (process_user_phase hash f s (some a)) i =
        countUser (insert_user s a) i := by
      show countUser (process_profile_images hash f (insert_user s a) a) i = _
      rw [hs]
      rfl
    rw [h1, countUser_insert]
    simp [optUserIdList]

theorem tweets_pjf (hash : String → String) (f : Nat → Bool)
    (fs : Nat → List String) (s : IngestState) (d : Doc) :
    (process_json_file hash f fs s d).tweets =
      s.tweets.filter (fun r => r.tweet_id ≠ d.tweet_id) ++
        [tweetRowOfDoc d (fs d.tweet_id)] := by
  have h2 : (process_user_phase hash f
      (process_user_phase hash f s d.author) d.user).tweets = s.tweets := by
    rw [tweets_phase, tweets_phase]
  unfold process_json_file
  simp only []
  split
  all_goals rw [← h2]
  all_goals try rfl

theorem countTweet_pjf (hash : String → String) (f : Nat → Bool)
    (fs : Nat → List String) (s : IngestState) (d : Doc) (i : Nat) :
    countTweet (process_json_file hash f fs s d) i =
      if i = d.tweet_id then 1 else countTweet s i := by
  unfold countTweet
  rw [tweets_pjf]
  exact filterLength_upsert s.tweets (fun r => r.tweet_id) _ d.tweet_id i rfl

theorem users_pjf (hash : String → String) (f : Nat → Bool)
    (fs : Nat → List String) (s : IngestState) (d : Doc) :
    (process_json_file hash f fs s d).users =
      (process_user_phase hash f (process_user_phase hash f s d.author) d.user).users := by
  unfold process_json_file
  simp only []
  split <;> rfl

theorem countUser_pjf (hash : String → String) (f : Nat → Bool)
    (fs : Nat → List String) (s : IngestState) (d : Doc) (i : Nat) :
    countUser (process_json_file hash f fs s d) i =
      if i ∈ docUserIds d then 1 else countUser s i := by
  have hu : countUser (process_json_file hash f fs s d) i =
      countUser (process_user_phase hash f (process_user_phase hash f s d.author) d.user) i := by
    unfold countUser
    rw [users_pjf]
  rw [hu, countUser_phase, countUser_phase]
  unfold docUserIds
  by_cases h1 : i ∈ optUserIdList d.user <;> by_cases h2 : i ∈ optUserIdList d.author <;>
    simp [h1, h2]

theorem countTweet_fold (hash : String → String) (f : Nat → Bool)
    (fs : Nat → List String) (docs : List Doc) (s : IngestState) (i : Nat) :
    countTweet (process_all_files hash f fs docs s) i =
      if i ∈ docTweetIds docs then 1 else countTweet s i := by
  induction docs generalizing s with
  | nil => simp [process_all_files, docTweetIds]
  | cons d ds ih =>
    unfold process_all_files at ih ⊢
    rw [List.foldl_cons, ih, countTweet_pjf]
    have hmem : i ∈ docTweetIds (d :: ds) ↔ i = d.tweet_id ∨ i ∈ docTweetIds ds := by
      simp [docTweetIds]
    by_cases h1 : i ∈ docTweetIds ds
    · rw [if_pos h1, if_pos (hmem.mpr (Or.inr h1))]
    · by_cases h2 : i = d.tweet_id
      · rw [if_neg h1, if_pos h2, if_pos (hmem.mpr (Or.inl h2))]
      · rw [if_neg h1, if_neg h2, if_neg (fun hc => (hmem.mp hc).elim h2 h1)]

theorem countUser_fold (hash : String → String) (f : Nat → Bool)
    (fs : Nat → List String) (docs : List Doc) (s : IngestState) (i : Nat) :
    countUser (process_all_files hash f fs docs s) i =
      if i ∈ allUserIds docs then 1 else countUser s i := by
  induction docs generalizing s with
  | nil => simp [process_all_files, allUserIds]
  | cons d ds ih =>
    unfold process_all_files at ih ⊢
    rw [List.foldl_cons, ih, countUser_pjf]
    have hmem : i ∈ allUserIds (d :: ds) ↔ i ∈ docUserIds d ∨ i ∈ allUserIds ds := by
      simp [allUserIds]
    by_cases h1 : i ∈ allUserIds ds
    · rw [if_pos h1, if_pos (hmem.mpr (Or.inr h1))]
    · by_cases h2 : i ∈ docUserIds d
      · rw [if_neg h1, if_pos h2, if_pos (hmem.mpr (Or.inl h2))]
      · rw [if_neg h1, if_neg h2, if_neg (fun hc => (hmem.mp hc).elim h2 h1)]

theorem grow_trans {hash : String → String} {s1 s2 s3 : IngestState}
    (h12 : LedgerSub s1 s2 ∧ FreshFetch hash s1 s2)
    (h23 : LedgerSub s2 s3 ∧ FreshFetch hash s2 s3) :
    LedgerSub s1 s3 ∧ FreshFetch hash s1 s3 := by
  refine ⟨fun x hx => h23.1 x (h12.1 x hx), fun u hu => ?_⟩
  rcases h23.2 u hu with h | h
  · exact h12.2 u h
  · right
    exact fun hc => h (h12.1 _ hc)

theorem download_cases (hash : String → String) (f : Nat → Bool)
    (s : IngestState) (url fn : String) :
    (hash url ∈ s.ledger ∧ (download_image hash f s url fn).1 = s) ∨
    (hash url ∉ s.ledger ∧
      ((download_image hash f s url fn).1.ledger = s.ledger ++ [hash url] ∨
       (download_image hash f s url fn).1.ledger = s.ledger) ∧
      (download_image hash f s url fn).1.fetched = s.fetched ++ [url]) := by
  unfold download_image
  by_cases h1 : hash url ∈ s.ledger
  · exact Or.inl ⟨h1, by simp [h1]⟩
  · refine Or.inr ⟨h1, ?_, ?_⟩
    · by_cases h2 : f s.fetched.length = true
      · exact Or.inl (by simp [h1, h2])
      · exact Or.inr (by simp [h1, h2])
    · by_cases h2 : f s.fetched.length = true
      · simp [h1, h2]
      · simp [h1, h2]

theorem grow_download (hash : String → String) (f : Nat → Bool)
    (s : IngestState) (url fn : String) :
    LedgerSub s (download_image hash f s url fn).1 ∧
      FreshFetch hash s (download_image hash f s url fn).1 := by
  rcases download_cases hash f s url fn with ⟨_, heq⟩ | ⟨h1, hled, hfet⟩
  · rw [heq]
    exact ⟨fun x hx => hx, fun u hu => Or.inl hu⟩
  · constructor
    · intro x hx
      rcases hled with h | h <;> rw [h]
      · exact List.mem_append.mpr (Or.inl hx)
      · exact hx
    · intro u hu
      rw [hfet] at hu
      rcases List.mem_append.mp hu with h | h
      · exact Or.inl h
      · rw [List.mem_singleton] at h
        subst h
        exact Or.inr h1

theorem grow_download_pic (hash : String → String) (f : Nat → Bool)
    (s : IngestState) (ou : Option String) (filename : String → String) :
    LedgerSub s (download_profile_pic hash f s ou filename) ∧
      FreshFetch hash s (download_profile_pic hash f s ou filename) := by
  cases ou with
  | none => exact ⟨fun x hx => hx, fun u hu => Or.inl hu⟩
  | some url =>
    by_cases h : url ≠ ""
    · have hd := grow_download hash f s url (filename url)
      have he : download_profile_pic hash f s (some url) filename =
          (download_image hash f s url (filename url)).1 := by
        show (if url ≠ "" then (download_image hash f s url (filename url)).1 else s) = _
        rw [if_pos h]
      rw [he]
      exact hd
    · have he : download_profile_pic hash f s (some url) filename = s := by
        show (if url ≠ "" then (download_image hash f s url (filename url)).1 else s) = _
        rw [if_neg h]
      rw [he]
      exact ⟨fun x hx => hx, fun u hu => Or.inl hu⟩

theorem grow_ppi (hash : String → String) (f : Nat → Bool)
    (s : IngestState) (u : UserData) :
    LedgerSub s (process_profile_images hash f s u) ∧
      FreshFetch hash s (process_profile_images hash f s u) := by
  unfold process_profile_images
  exact grow_trans
    (grow_download_pic hash f s u.profile_banner _)
    (grow_download_pic hash f _ u.profile_image _)

theorem grow_phase (hash : String → String) (f : Nat → Bool)
    (s : IngestState) (ou : Option UserData) :
    LedgerSub s (process_user_phase hash f s ou) ∧
      FreshFetch hash s (process_user_phase hash f s ou) := by
  cases ou with
  | none => exact ⟨fun x hx => hx, fun u hu => Or.inl hu⟩
  | some a =>
    have hgrow := grow_ppi hash f (insert_user s a) a
    exact grow_trans ⟨fun x hx => hx, fun u hu => Or.inl hu⟩ hgrow

theorem grow_pjf (hash : String → String) (f : Nat → Bool)
    (fs : Nat → List String) (s : IngestState) (d : Doc) :
    LedgerSub s (process_json_file hash f fs s d) ∧
      FreshFetch hash s (process_json_file hash f fs s d) := by
  have hshape : (process_json_file hash f fs s d).ledger =
        (process_user_phase hash f (process_user_phase hash f s d.author) d.user).ledger ∧
      (process_json_file hash f fs s d).fetched =
        (process_user_phase hash f (process_user_phase hash f s d.author) d.user).fetched := by
    unfold process_json_file
    simp only []
    split <;> exact ⟨rfl, rfl⟩
  have hg := grow_trans (grow_phase hash f s d.author)
    (grow_phase hash f (process_user_phase hash f s d.author) d.user)
  constructor
  · intro x hx
    rw [hshape.1]
    exact hg.1 x hx
  · intro u hu
    rw [hshape.2] at hu
    exact hg.2 u hu

theorem grow_fold (hash : String → String) (f : Nat → Bool)
    (fs : Nat → List String) (docs : List Doc) (s : IngestState) :
    LedgerSub s (process_all_files hash f fs docs s) ∧
      FreshFetch hash s (process_all_files hash f fs docs s) := by
  induction docs generalizing s with
  | nil => exact ⟨fun x hx => hx, fun u hu => Or.inl hu⟩
  | cons d ds ih =>
    unfold process_all_files at ih ⊢
    rw [List.foldl_cons]
    exact grow_trans (grow_pjf hash f fs s d) (ih _)

end TwitterBackup

open TwitterBackup

/-- C4: media path normalization is idempotent:
`normalize(normalize(L)) == normalize(L)` for every list of media filename
strings, where normalize strips leading slashes and prefixes `img/` when the
name does not already start with `img/`. -/
theorem C4_normalize_media_idempotent (L : List String) :
    TwitterBackup.normalizeMediaList (TwitterBackup.normalizeMediaList L) =
      TwitterBackup.normalizeMediaList L := by
  unfold TwitterBackup.normalizeMediaList
  rw [List.map_map]
  apply List.map_congr_left
  intro s _
  exact TwitterBackup.normalizeMediaItem_idem s

/-- C5: for every tweet row processed by a read endpoint, the `is_retweet`,
`is_quote`, `is_reply` flags attached to the view equal `retweet_id > 0`,
`quote_id > 0`, `reply_id > 0` respectively, and are invariant under every
change of `author_id` / `user_id` — they are never derived from comparing
those two columns. -/
theorem C5_flags_from_forward_pointers (t : TweetRow) (a u : Option Nat) :
    (is_retweet_flag { t with author_id := a, user_id := u } = is_retweet_flag t ∧
     is_quote_flag { t with author_id := a, user_id := u } = is_quote_flag t ∧
     is_reply_flag { t with author_id := a, user_id := u } = is_reply_flag t) ∧
    ((is_retweet_flag t = true ↔ 0 < t.retweet_id) ∧
     (is_quote_flag t = true ↔ 0 < t.quote_id) ∧
     (is_reply_flag t = true ↔ 0 < t.reply_id)) := by
  refine ⟨⟨rfl, rfl, rfl⟩, ?_, ?_, ?_⟩ <;>
    simp [is_retweet_flag, is_quote_flag, is_reply_flag]

/-- C7: on the content `"check http://t.co/abc123 out"`, the full content
transformation replaces only the `t.co` URL with the fixed view-link marker
span, leaves the surrounding text `"check "` and `" out"` unchanged, and the
later general-link rule does not rewrite the substituted marker. -/
theorem C7_tco_link_replacement :
    transformTweetContent (some "check http://t.co/abc123 out") =
      some ("check " ++ tcoMarker ++ " out") := by
  decide

/-- C8: for every user id and every stored remote avatar URL (empty and
malformed values included), if the file `avatar_{user_id}{extension-of-URL}`
does not exist in the local avatar directory, avatar resolution returns the
fixed placeholder URL. -/
theorem C8_avatar_placeholder_when_no_file (fileE : String → Bool)
    (uid : Option Nat) (url : Option String)
    (h : ∀ s, url = some s → fileE (avatarLocalFilename uid s) = false) :
    convert_avatar_url_to_local fileE uid url = placeholderAvatar := by
  match url with
  | none => simp [convert_avatar_url_to_local, truthyOpt]
  | some s =>
    by_cases hs : s = ""
    · simp [convert_avatar_url_to_local, truthyOpt, hs]
    · by_cases hid : falsyId uid = true
      · simp [convert_avatar_url_to_local, hid]
      · have hfs := h s rfl
        simp [convert_avatar_url_to_local, truthyOpt, hs, hid, hfs]

/-- Witness for C8 at a concrete user, URL and an avatar directory holding no
files. -/
theorem C8_witness :
    convert_avatar_url_to_local (fun _ => false) (some 42)
      (some "https://pbs.twimg.com/profile_images/1/photo.jpg") = placeholderAvatar :=
  C8_avatar_placeholder_when_no_file (fun _ => false) (some 42)
    (some "https://pbs.twimg.com/profile_images/1/photo.jpg")
    (fun _ _ => rfl)

/-- C9: every input whose cleaned form (HTML tags removed, whitespace
collapsed and stripped) is empty makes both `translate_tweet` and
`detect_language` return a structured failure immediately, with zero HTTP
requests issued, for every service type and vendor behaviour. -/
theorem C9_empty_input_fails_without_network (oracle : VendorOracle)
    (oracle2 : DetectOracle) (serviceType content targetLang sourceLang : String)
    (h : ts_clean_tweet_content content = "") :
    (translate_tweet oracle serviceType content targetLang sourceLang).1.success = false ∧
    (translate_tweet oracle serviceType content targetLang sourceLang).2 = 0 ∧
    (detect_language oracle2 serviceType content).1.success = false ∧
    (detect_language oracle2 serviceType content).2 = 0 := by
  unfold translate_tweet detect_language
  simp [h]

/-- Witness for C9 on a whitespace-only input with concrete oracles. -/
theorem C9_witness :
    (translate_tweet (fun c _ _ => Except.ok c) "google" "   " "zh" "auto").1.success = false ∧
    (translate_tweet (fun c _ _ => Except.ok c) "google" "   " "zh" "auto").2 = 0 ∧
    (detect_language (fun c => Except.ok c) "google" "   ").1.success = false ∧
    (detect_language (fun c => Except.ok c) "google" "   ").2 = 0 :=
  C9_empty_input_fails_without_network (fun c _ _ => Except.ok c)
    (fun c => Except.ok c) "google" "   " "zh" "auto" (by decide)

/-- C2 fails as stated: `index` (like `user_profile`, `search` and
`tweet_detail`) parses the root row's `media_files` with an unguarded
`json.loads`, so the malformed column `"\x7b"` makes the endpoint raise a
parse error instead of treating it as an empty list. -/
theorem C2_counterexample :
    loadsList "\x7b" = Except.error () ∧
    parseRootColumnsViewer { tweet_id := 1, media_files := some "\x7b" } =
      Except.error () :=
  ⟨rfl, rfl⟩

/-- C2 (amended): a stored `media_files`/`hashtags` fragment that is not valid
JSON is treated as an empty list only on the guarded paths — the stats
top-tweets parse and the guarded hashtag/sub-object parses — while the root
parses of timeline/profile/search/detail propagate the parse exception and
the user-media fragment's root media parse aborts into its
`{"success": False}` handler. -/
theorem C2_malformed_json_handling (s : String) (hs : s ≠ "")
    (h : loadsList s = Except.error ()) (t : TweetRow) :
    (parseRootColumnsViewer { t with media_files := some s } = Except.error ()) ∧
    (parseRootColumnsViewer { t with media_files := none, hashtags := some s } =
      Except.error ()) ∧
    (parseColumnsStats { t with media_files := some s, hashtags := some s } = ([], [])) ∧
    (parseColGuarded (some s) = []) ∧
    (api_user_media_success { t with media_files := some s } = false) := by
  refine ⟨?_, ?_, ?_, ?_, ?_⟩ <;>
    simp [parseRootColumnsViewer, parseColumnsStats, parseColGuarded,
      api_user_media_success, api_user_media_parse, parseColUnguarded, hs, h]

/-- Witness for C2's amended statement at the concrete malformed fragment. -/
theorem C2_witness :
    parseRootColumnsViewer { tweet_id := 2, media_files := some "\x7b" } =
      Except.error () :=
  (C2_malformed_json_handling "\x7b" (by decide) rfl { tweet_id := 2 }).1

/-- C6: with `year="2023"` and empty query and month, the search result set
is exactly the stored tweets whose date's year component is 2023 (as a
permutation of that filter, i.e. same rows with multiplicity), ordered by
descending date; and with query, year and month all absent the endpoint
reports no query and an empty result. -/
theorem C6_search_year_2023 (db : Store) (page : Nat) :
    List.Perm (search_endpoint db "" "2023" "" page).rows
      (db.tweets.filter (fun t => strftimeY t.date == some "2023")) ∧
    List.Sorted dateDescRel (search_endpoint db "" "2023" "" page).rows ∧
    (search_endpoint db "" "" "" page).queried = false ∧
    (search_endpoint db "" "" "" page).rows = [] := by
  have hfilter : db.tweets.filter (searchCond "" "2023" "") =
      db.tweets.filter (fun t => strftimeY t.date == some "2023") :=
    List.filter_congr (fun t _ => by simp [searchCond])
  have h1 : (search_endpoint db "" "2023" "" page).rows =
      List.insertionSort dateDescRel (db.tweets.filter (searchCond "" "2023" "")) := by
    simp [search_endpoint, searchMatches]
  refine ⟨?_, ?_, rfl, rfl⟩
  · rw [h1, hfilter]
    exact List.perm_insertionSort dateDescRel _
  · rw [h1]
    exact List.sorted_insertionSort dateDescRel _

/-- Witness for C6 at a concrete two-row store. -/
theorem C6_witness :
    List.Perm
      (search_endpoint
        { tweets := [{ tweet_id := 1, date := some "2023-05-17 10:20:30" },
                     { tweet_id := 2, date := some "2022-01-01 00:00:00" }] }
        "" "2023" "" 1).rows
      (List.filter (fun t => strftimeY t.date == some "2023")
        [{ tweet_id := 1, date := some "2023-05-17 10:20:30" },
         { tweet_id := 2, date := some "2022-01-01 00:00:00" }]) :=
  (C6_search_year_2023
    { tweets := [{ tweet_id := 1, date := some "2023-05-17 10:20:30" },
                 { tweet_id := 2, date := some "2022-01-01 00:00:00" }] } 1).1

/-- C10: for every `total_pages ≥ 1` and `1 ≤ current_page ≤ total_pages`,
`get_pagination_range` with the default `max_visible = 7` yields a non-empty
contiguous ascending integer range lying within `[1, total_pages]` and
containing `current_page`; when `total_pages ≤ 7` it is exactly
`[1, ..., total_pages]`. -/
theorem C10_pagination_pages_invariants (current_page total_pages : Int)
    (h1 : 1 ≤ total_pages) (h2 : 1 ≤ current_page) (h3 : current_page ≤ total_pages) :
    (get_pagination_range current_page total_pages 7).pages ≠ [] ∧
    (∀ p ∈ (get_pagination_range current_page total_pages 7).pages,
      1 ≤ p ∧ p ≤ total_pages) ∧
    current_page ∈ (get_pagination_range current_page total_pages 7).pages ∧
    (∃ a b, a ≤ b ∧ (get_pagination_range current_page total_pages 7).pages = intRange a b) ∧
    (total_pages ≤ 7 →
      (get_pagination_range current_page total_pages 7).pages = intRange 1 total_pages) := by
  have hediv : (7 : Int).ediv 2 = 3 := by decide
  simp only [get_pagination_range, hediv]
  split_ifs with hA hB hC
  · refine ⟨intRange_ne_nil (by omega), ?_, mem_intRange.mpr ⟨h2, h3⟩,
      ⟨1, total_pages, by omega, rfl⟩, fun _ => rfl⟩
    intro p hp
    exact mem_intRange.mp hp
  · refine ⟨intRange_ne_nil (by omega), ?_, mem_intRange.mpr ⟨h2, by omega⟩,
      ⟨1, 7, by omega, rfl⟩, fun hc => absurd hc hA⟩
    intro p hp
    have := mem_intRange.mp hp
    exact ⟨this.1, by omega⟩
  · refine ⟨intRange_ne_nil (by omega), ?_, mem_intRange.mpr ⟨by omega, h3⟩,
      ⟨total_pages - 7 + 1, total_pages, by omega, rfl⟩, fun hc => absurd hc hA⟩
    intro p hp
    have := mem_intRange.mp hp
    exact ⟨by omega, this.2⟩
  · refine ⟨intRange_ne_nil (by omega), ?_, mem_intRange.mpr ⟨by omega, by omega⟩,
      ⟨current_page - 3, current_page + 3, by omega, rfl⟩, fun hc => absurd hc hA⟩
    intro p hp
    have := mem_intRange.mp hp
    exact ⟨by omega, by omega⟩

/-- Witness for C10 at `current_page = 9`, `total_pages = 10`. -/
theorem C10_witness :
    9 ∈ (get_pagination_range 9 10 7).pages :=
  (C10_pagination_pages_invariants 9 10 (by decide) (by decide) (by decide)).2.2.1

/-- C1 fails as stated: in a store where the retweet target row
`tweet_id = 2` exists but its `content` is the empty string, the guard
`tweet.get("retweet_content")` is falsy and the timeline omits the retweet
sub-object even though the pointed-to row exists. -/
theorem C1_counterexample :
    (∃ rt ∈ [({ tweet_id := 1, retweet_id := 2 } : TweetRow),
             ({ tweet_id := 2, content := some "" } : TweetRow)], rt.tweet_id = 2) ∧
    resolveRetweetIndex
      { tweets := [{ tweet_id := 1, retweet_id := 2 },
                   { tweet_id := 2, content := some "" }] }
      { tweet_id := 1, retweet_id := 2 } = none := by
  decide

/-- C1 (amended): for a tweet with `retweet_id = R > 0` in a store with unique
tweet ids, the resolved view embeds the retweet sub-object built from the row
with `tweet_id = R` exactly when that row exists and its content is non-null
and non-empty (for the detail view, additionally when its media column
parses); when no such row exists, or its content is null/empty, the
sub-object is omitted without an error. -/
theorem C1_retweet_relationship_resolution (db : Store) (t : TweetRow)
    (hpos : 0 < t.retweet_id)
    (hnd : (db.tweets.map (fun r => r.tweet_id)).Nodup) :
    ((∀ rt ∈ db.tweets, rt.tweet_id ≠ t.retweet_id) →
        resolveRetweetIndex db t = none ∧
        resolveRetweetDetail db t = Except.ok none) ∧
    (∀ rt ∈ db.tweets, rt.tweet_id = t.retweet_id →
      (∀ c, rt.content = some c → c ≠ "" →
        (resolveRetweetIndex db t = some
          { content := c, author_id := rt.author_id, user_id := rt.user_id
            author_name := (findUser db.users rt.author_id).bind (fun u => u.name)
            author_nick := (findUser db.users rt.author_id).bind (fun u => u.nick)
            author_avatar :=
              (findUser db.users rt.author_id).bind (fun u => u.profile_image) }) ∧
        (∀ m, parseColUnguarded rt.media_files = Except.ok m →
          resolveRetweetDetail db t = Except.ok (some
            { content := c, author_id := rt.author_id, user_id := rt.user_id
              author_name := (findUser db.users rt.author_id).bind (fun u => u.name)
              author_nick := (findUser db.users rt.author_id).bind (fun u => u.nick)
              author_avatar :=
                (findUser db.users rt.author_id).bind (fun u => u.profile_image)
              media_files := m }))) ∧
      ((rt.content = none ∨ rt.content = some "") →
        resolveRetweetIndex db t = none ∧
        resolveRetweetDetail db t = Except.ok none)) := by
  constructor
  · intro habsent
    have hfind : findTweet db.tweets t.retweet_id = none := by
      unfold findTweet
      rw [List.find?_eq_none]
      intro x hx
      simpa using habsent x hx
    constructor
    · simp [resolveRetweetIndex, hfind, truthyOpt]
    · simp [resolveRetweetDetail, hfind, truthyOpt]
  · intro rt hmem heq
    have hfind : findTweet db.tweets t.retweet_id = some rt := by
      rw [← heq]
      exact findTweet_eq_some_of_mem hnd hmem
    refine ⟨fun c hc hcne => ⟨?_, fun m hm => ?_⟩, fun hfalsy => ⟨?_, ?_⟩⟩
    · simp [resolveRetweetIndex, hfind, truthyOpt, hc, hcne, is_retweet_flag, hpos]
    · simp [resolveRetweetDetail, hfind, truthyOpt, hc, hcne, is_retweet_flag, hpos, hm]
    · rcases hfalsy with hc | hc <;>
        simp [resolveRetweetIndex, hfind, truthyOpt, hc]
    · rcases hfalsy with hc | hc <;>
        simp [resolveRetweetDetail, hfind, truthyOpt, hc]

/-- Witness for C1's amended statement on a concrete three-row store. -/
theorem C1_witness :
    resolveRetweetIndex
      { tweets := [{ tweet_id := 1, retweet_id := 2 },
                   { tweet_id := 2, content := some "hello", author_id := some 7 }],
        users := [{ user_id := 7, name := some "Alice", nick := some "alice",
                    profile_image := some "http://x/y.png" }] }
      { tweet_id := 1, retweet_id := 2 } = some
      { content := "hello", author_id := some 7, user_id := none
        author_name := some "Alice", author_nick := some "alice"
        author_avatar := some "http://x/y.png" } :=
  (((C1_retweet_relationship_resolution
      { tweets := [{ tweet_id := 1, retweet_id := 2 },
                   { tweet_id := 2, content := some "hello", author_id := some 7 }],
        users := [{ user_id := 7, name := some "Alice", nick := some "alice",
                    profile_image := some "http://x/y.png" }] }
      { tweet_id := 1, retweet_id := 2 } (by decide) (by decide)).2
    { tweet_id := 2, content := some "hello", author_id := some 7 }
    (by decide) rfl).1 "hello" rfl (by decide)).1

/-- C3: starting from an empty store, running the ingestion pipeline twice
over the same document set leaves exactly one `tweets` row per distinct
`tweet_id` and exactly one `users` row per distinct mentioned user id (and no
row for any other id), and the second run issues no HTTP fetch for any URL
whose hash the first run recorded in the downloaded-images ledger — for every
URL hash function and any per-request success/failure outcome in either run. -/
theorem C3_reingestion_idempotent (hash : String → String)
    (fetchOk1 fetchOk2 : Nat → Bool) (fs : Nat → List String) (docs : List Doc) :
    (∀ i, countTweet
        (process_all_files hash fetchOk2 fs docs
          { process_all_files hash fetchOk1 fs docs {} with fetched := [] }) i =
      if i ∈ docTweetIds docs then 1 else 0) ∧
    (∀ i, countUser
        (process_all_files hash fetchOk2 fs docs
          { process_all_files hash fetchOk1 fs docs {} with fetched := [] }) i =
      if i ∈ allUserIds docs then 1 else 0) ∧
    (∀ u ∈ (process_all_files hash fetchOk2 fs docs
          { process_all_files hash fetchOk1 fs docs {} with fetched := [] }).fetched,
      hash u ∉ (process_all_files hash fetchOk1 fs docs {}).ledger) := by
  refine ⟨fun i => ?_, fun i => ?_, fun u hu => ?_⟩
  · rw [countTweet_fold]
    by_cases h : i ∈ docTweetIds docs
    · rw [if_pos h, if_pos h]
    · rw [if_neg h, if_neg h]
      have h2 : countTweet
          { process_all_files hash fetchOk1 fs docs {} with fetched := [] } i =
          countTweet (process_all_files hash fetchOk1 fs docs {}) i := rfl
      rw [h2, countTweet_fold, if_neg h]
      rfl
  · rw [countUser_fold]
    by_cases h : i ∈ allUserIds docs
    · rw [if_pos h, if_pos h]
    · rw [if_neg h, if_neg h]
      have h2 : countUser
          { process_all_files hash fetchOk1 fs docs {} with fetched := [] } i =
          countUser (process_all_files hash fetchOk1 fs docs {}) i := rfl
      rw [h2, countUser_fold, if_neg h]
      rfl
  · have hgrow := grow_fold hash fetchOk2 fs docs
      { process_all_files hash fetchOk1 fs docs {} with fetched := [] }
    rcases hgrow.2 u hu with h | h
    · cases h
    · exact h

/-- Witness for C3 on a one-document batch with an always-succeeding network. -/
theorem C3_witness :
    countTweet
      (process_all_files (fun x => x) (fun _ => true) (fun _ => [])
        [{ tweet_id := 1,
           author := some { id := 7, profile_image := some "http://a/b.png" } }]
        { process_all_files (fun x => x) (fun _ => true) (fun _ => [])
            [{ tweet_id := 1,
               author := some { id := 7, profile_image := some "http://a/b.png" } }]
            {} with fetched := [] }) 1 =
      if 1 ∈ docTweetIds
          [{ tweet_id := 1,
             author := some { id := 7, profile_image := some "http://a/b.png" } }]
        then 1 else 0 :=
  (C3_reingestion_idempotent (fun x => x) (fun _ => true) (fun _ => true)
    (fun _ => [])
    [{ tweet_id := 1,
       author := some { id := 7, profile_image := some "http://a/b.png" } }]).1 1
